import Mathlib

/-!
Verification of the de-palma orchestration pipeline against its
natural-language specification.

The definitions below are a shallow embedding of the TypeScript sources:
the orchestrator lambda (`handler`, `handleEmailReceived`,
`getTeamDataFromSheets`, `getSchedulerRecommendation`,
`findTeamMemberEmail`) and the email-sender lambda
(`src/lambdas/email-sender/index.ts`).  External collaborators that live
outside the repository snapshot (the Anthropic client, the DynamoDB-backed
`MemoryService`, the AWS SDK) are modelled at their call boundary: results
of the text-generation collaborator, fresh uuids, and clock readings are
inputs of a run; the memory store is explicit state.  JS `number`
confidence literals (0.85, 0.8, 0.65) are embedded exactly, scaled to
hundredths as naturals.
-/

namespace DePalma

/-- Direction tag of a stored message (`'incoming' | 'outgoing'`). -/
inductive MsgType
  | incoming
  | outgoing
deriving DecidableEq

/-- `Message` record from the types module, as stored by the lambdas.
The `from` field is called `fromAddr` (`from` is a Lean keyword). -/
structure Message where
  id : String
  fromAddr : String
  toAddr : String
  subject : String
  body : String
  timestamp : String
  type : MsgType
deriving DecidableEq

/-- Task lifecycle states written by the orchestrator. -/
inductive TaskStatus
  | pending
  | assigned
  | completed
  | cancelled
deriving DecidableEq

/-- `Task` record created and mutated by `handleEmailReceived`. -/
structure Task where
  id : String
  description : String
  deadline : Option String
  skillsRequired : List String
  priority : String
  status : TaskStatus
  requestedBy : String
  createdAt : String
  updatedAt : String
  assignedTo : Option String
deriving DecidableEq

/-- A roster row, as returned by `getTeamDataFromSheets`. -/
structure TeamMember where
  name : String
  email : String
  skills : List String
  currentWorkload : Nat
  availability : String
deriving DecidableEq

/-- The task request extracted from the inbound email. -/
structure TaskRequest where
  description : String
  deadline : Option String
  skillsRequired : List String
  priority : Option String
deriving DecidableEq

/-- The `assignment` part of the scheduler's recommendation.  The
`confidence` field is `Option` because the value is `any`-typed in the
source and `handleEmailReceived` guards it with `?.` and `||`. -/
structure SchedAssignment where
  assignee : String
  confidence : Option Nat
  rationale : String
deriving DecidableEq

/-- One alternative in the scheduler's recommendation
(`teamData[1]?.name` can be `undefined`, hence `Option`). -/
structure SchedAlternative where
  assignee : Option String
  confidence : Nat
  rationale : String
deriving DecidableEq

/-- Shape of `getSchedulerRecommendation`'s result. -/
structure SchedRecommendation where
  assignment : Option SchedAssignment
  alternatives : List SchedAlternative
deriving DecidableEq

/-- Structured result of the text-generation collaborator
(`claudeClient.generateAssignment`), an external input of a run. -/
structure AssignmentDecision where
  assignee : String
  rationale : String
  emailSubject : String
  emailBody : String
deriving DecidableEq

/-- Decision record passed to `memoryService.storeDecision`. -/
structure Decision where
  taskId : String
  assignedTo : String
  rationale : String
  timestamp : String
  confidence : Nat
deriving DecidableEq

/-- Parsed inbound email data carried by the orchestrator event. -/
structure InboundEmail where
  messageId : String
  fromAddr : String
  toAddrs : List String
  subject : String
  timestamp : String
deriving DecidableEq

/-- `event.data` of the orchestrator event (`{ email, taskRequest, message }`). -/
structure OrchEventData where
  email : InboundEmail
  taskRequest : TaskRequest
  message : Message
deriving DecidableEq

/-- The orchestrator's inbound event; `type` is the dispatch string.  The
dedup key of the spec is the originating message id
(`data.email.messageId`). -/
structure OrchestratorEvent where
  type : String
  data : OrchEventData
deriving DecidableEq

/-- `emailData` of an `EmailSenderEvent`. -/
structure EmailData where
  toAddrs : List String
  subject : String
  body : String
deriving DecidableEq

/-- Event payload sent to the email-sender lambda.  Note: it carries no
idempotency key; `taskId` is the only correlation field. -/
structure EmailSenderEvent where
  type : String
  emailData : EmailData
  taskId : Option String
deriving DecidableEq

/-- A thrown JS error (caught by the handlers' top-level `catch`). -/
inductive JsError
  | err (msg : String)
deriving DecidableEq

/-- The HTTP-shaped object a lambda handler returns.  `message` is the
`message`/`error` field of the JSON body; `taskId` is the task carried in
a successful orchestration body. -/
structure Response where
  statusCode : Nat
  message : String
  taskId : Option String
deriving DecidableEq

/-- State of the DynamoDB-backed memory table.
Modelled from the spec: `src/lib/memory` (`MemoryService`) is not in the
snapshot; per the spec's persisted layout, Tasks are keyed records by
Task id, Decisions and Messages are appended in store order. -/
structure MemoryState where
  messages : List Message
  tasks : List Task
  decisions : List Decision
deriving DecidableEq

/-- Observable side effects of one run, in execution order. -/
inductive Op
  | buildContext
  | storeTask (id : String) (status : TaskStatus)
  | sheetsRead
  | schedulerConsulted
  | claudeConsulted
  | storeDecision (d : Decision)
  | dispatchEmail (e : EmailSenderEvent)
deriving DecidableEq

/-- External inputs of one orchestrator run: the uuid `uuidv4()` returns,
the clock reading, and the text-generation collaborator's response. -/
structure OrchestratorEnv where
  freshTaskId : String
  now : String
  claudeResponse : AssignmentDecision
deriving DecidableEq

/-- Modelled from the spec: `MemoryService.storeActiveTask` upserts the
record keyed by `Task.id` ("Task keyed by Task id"). -/
def upsertTask (ts : List Task) (t : Task) : List Task :=
  if ts.any (fun x => x.id == t.id) then
    ts.map (fun x => if x.id == t.id then t else x)
  else ts ++ [t]

/-- Modelled from the spec: `MemoryService.storeActiveTask`. -/
def storeActiveTask (s : MemoryState) (t : Task) : MemoryState :=
  { s with tasks := upsertTask s.tasks t }

/-- Modelled from the spec: `MemoryService.storeDecision` appends to the
append-only decision ledger. -/
def storeDecision (s : MemoryState) (d : Decision) : MemoryState :=
  { s with decisions := s.decisions ++ [d] }

/-- Modelled from the spec: `MemoryService.storeMessage` appends in store
order. -/
def storeMessage (s : MemoryState) (m : Message) : MemoryState :=
  { s with messages := s.messages ++ [m] }

/-- `getTeamDataFromSheets` from the orchestrator source: returns the
hardcoded mock roster. -/
def getTeamDataFromSheets : List TeamMember :=
  [ { name := "Alex", email := "alex@team.com",
      skills := ["backend", "api", "docs"],
      currentWorkload := 30, availability := "available" },
    { name := "Sarah", email := "sarah@team.com",
      skills := ["mobile", "frontend", "api"],
      currentWorkload := 45, availability := "available" } ]

/-- `getSchedulerRecommendation` from the orchestrator source: returns the
hardcoded mock recommendation built from the roster.  `none` embeds the
TypeError thrown by `teamData[0].name` on an empty roster (dead in actual
runs, where the roster is the nonempty mock). -/
def getSchedulerRecommendation (teamData : List TeamMember) :
    Option SchedRecommendation :=
  match teamData with
  | [] => none
  | m0 :: rest =>
    some { assignment := some { assignee := m0.name, confidence := some 85,
                                rationale := "Best skill match and lowest workload" },
           alternatives := [ { assignee := rest.head?.map TeamMember.name,
                               confidence := 65,
                               rationale := "Has some relevant skills but higher workload" } ] }

/-- `findTeamMemberEmail` from the orchestrator source. -/
def findTeamMemberEmail (name : String) (teamData : List TeamMember) :
    Option String :=
  (teamData.find? (fun m => m.name == name)).map TeamMember.email

/-- JS `taskRequest.priority || 'medium'` (falsy: absent or empty string). -/
def priorityOrMedium (p : Option String) : String :=
  match p with
  | none => "medium"
  | some v => if v = "" then "medium" else v

/-- JS `schedulerRecommendation.assignment?.confidence || 0.8`, in
hundredths: the recommendation's confidence when present and non-zero,
otherwise the 0.8 fallback. -/
def jsOrConfidence (rec : SchedRecommendation) : Nat :=
  match rec.assignment with
  | none => 80
  | some a =>
    match a.confidence with
    | none => 80
    | some c => if c = 0 then 80 else c

/-- The Task object `handleEmailReceived` builds before assignment. -/
def pendingTask (d : OrchEventData) (env : OrchestratorEnv) : Task :=
  { id := env.freshTaskId,
    description := d.taskRequest.description,
    deadline := d.taskRequest.deadline,
    skillsRequired := d.taskRequest.skillsRequired,
    priority := priorityOrMedium d.taskRequest.priority,
    status := .pending,
    requestedBy := d.email.fromAddr,
    createdAt := env.now,
    updatedAt := env.now,
    assignedTo := none }

/-- The same Task after `task.assignedTo = ...; task.status = 'assigned'`. -/
def assignedTask (d : OrchEventData) (env : OrchestratorEnv) : Task :=
  { pendingTask d env with
    assignedTo := some env.claudeResponse.assignee,
    status := .assigned,
    updatedAt := env.now }

/-- The Decision `handleEmailReceived` passes to `storeDecision`. -/
def runDecision (env : OrchestratorEnv) (rec : SchedRecommendation) : Decision :=
  { taskId := env.freshTaskId,
    assignedTo := env.claudeResponse.assignee,
    rationale := env.claudeResponse.rationale,
    timestamp := env.now,
    confidence := jsOrConfidence rec }

/-- The dispatch step of `handleEmailReceived`: the assignment email is
queued only when `findTeamMemberEmail` finds the assignee in the roster
(`if (assigneeEmail) { await sendAssignmentEmail(...) }`). -/
def dispatchOps (d : OrchEventData) (env : OrchestratorEnv) : List Op :=
  match findTeamMemberEmail env.claudeResponse.assignee getTeamDataFromSheets with
  | some addr =>
    [ .dispatchEmail
        { type := "assignment_email",
          emailData := { toAddrs := [addr, d.email.fromAddr],
                         subject := env.claudeResponse.emailSubject,
                         body := env.claudeResponse.emailBody },
          taskId := some env.freshTaskId } ]
  | none => []

/-- `handleEmailReceived` from the orchestrator source, step for step:
build memory context, store the pending Task, read the roster, consult the
scheduler mock, consult the text generator, store the assigned Task,
store the Decision, conditionally queue the assignment email, return the
200 body `{ message: 'Task assigned successfully', task, assignment }`.
A thrown error (`Except.error`) leaves the writes made so far in place. -/
def handleEmailReceived (d : OrchEventData) (env : OrchestratorEnv)
    (s : MemoryState) : Except JsError Response × MemoryState × List Op :=
  let task0 := pendingTask d env
  let s1 := storeActiveTask s task0
  let ops1 : List Op := [.buildContext, .storeTask task0.id .pending, .sheetsRead]
  match getSchedulerRecommendation getTeamDataFromSheets with
  | none =>
    (.error (.err "TypeError: cannot read name of undefined"), s1,
      ops1 ++ [.schedulerConsulted])
  | some rec =>
    let task1 := assignedTask d env
    let s2 := storeActiveTask s1 task1
    let decision := runDecision env rec
    let s3 := storeDecision s2 decision
    let ops2 := ops1 ++ [.schedulerConsulted, .claudeConsulted,
      .storeTask task1.id .assigned, .storeDecision decision]
    (.ok { statusCode := 200, message := "Task assigned successfully",
           taskId := some task0.id },
     s3, ops2 ++ dispatchOps d env)

/-- The orchestrator lambda `handler`: dispatches on `event.type`; the
`default` branch throws `Unknown event type`, and every thrown error is
caught by the top-level `catch`, which returns the generic
`{ statusCode: 500, error: 'Internal server error' }` response. -/
def orchestratorHandler (ev : OrchestratorEvent) (env : OrchestratorEnv)
    (s : MemoryState) : Response × MemoryState × List Op :=
  if ev.type = "email_received" then
    match handleEmailReceived ev.data env s with
    | (.ok r, s', ops) => (r, s', ops)
    | (.error _, s', ops) =>
      ({ statusCode := 500, message := "Internal server error", taskId := none },
       s', ops)
  else if ev.type = "manual_task" then
    ({ statusCode := 200, message := "Manual task handling not implemented yet",
       taskId := none }, s, [])
  else if ev.type = "health_check" then
    ({ statusCode := 200, message := "healthy", taskId := none }, s, [])
  else
    ({ statusCode := 500, message := "Internal server error", taskId := none },
     s, [])

/-- One email actually handed to SES by the email-sender lambda
(`sesService.sendAssignmentEmail('Unknown', assigneeEmail, ccEmails, ...)`). -/
structure SesSend where
  name : String
  toAddr : String
  cc : List String
  subject : String
  body : String
  taskId : Option String
deriving DecidableEq

/-- State touched by the email-sender lambda: emails handed to SES and the
outgoing messages stored in memory. -/
structure SenderState where
  sent : List SesSend
  notifSent : List EmailData
  memory : List Message
deriving DecidableEq

/-- External inputs of one email-sender run: the `uuidv4()` for the stored
message, the clock, and the `EMAIL_DOMAIN` environment value. -/
structure SenderEnv where
  freshMsgId : String
  now : String
  emailDomain : String
deriving DecidableEq

/-- `sendAssignmentEmail` from the email-sender source: takes
`emailData.to[0]` as the assignee address and the rest as CC, sends via
SES, then stores an outgoing Message with a fresh uuid.  No idempotency
key is consulted anywhere.  An empty `to` list embeds as a thrown error at
the SES boundary. -/
def sendAssignmentEmailRun (ev : EmailSenderEvent) (env : SenderEnv)
    (s : SenderState) : Except JsError Response × SenderState :=
  match ev.emailData.toAddrs with
  | [] => (.error (.err "invalid destination"), s)
  | a :: cc =>
    let send : SesSend :=
      { name := "Unknown", toAddr := a, cc := cc,
        subject := ev.emailData.subject, body := ev.emailData.body,
        taskId := ev.taskId }
    let s1 := { s with sent := s.sent ++ [send] }
    let msg : Message :=
      { id := env.freshMsgId, fromAddr := "louie@" ++ env.emailDomain,
        toAddr := a, subject := ev.emailData.subject,
        body := ev.emailData.body, timestamp := env.now, type := .outgoing }
    (.ok { statusCode := 200, message := "Assignment email sent successfully",
           taskId := ev.taskId },
     { s1 with memory := s1.memory ++ [msg] })

/-- `sendNotificationEmail` from the email-sender source. -/
def sendNotificationEmailRun (ev : EmailSenderEvent) (env : SenderEnv)
    (s : SenderState) : Except JsError Response × SenderState :=
  match ev.emailData.toAddrs with
  | [] => (.error (.err "invalid destination"), s)
  | t0 :: _ =>
    let s1 := { s with notifSent := s.notifSent ++ [ev.emailData] }
    let msg : Message :=
      { id := env.freshMsgId, fromAddr := "louie@" ++ env.emailDomain,
        toAddr := t0, subject := ev.emailData.subject,
        body := ev.emailData.body, timestamp := env.now, type := .outgoing }
    (.ok { statusCode := 200,
           message := "Notification email sent successfully", taskId := none },
     { s1 with memory := s1.memory ++ [msg] })

/-- The email-sender lambda `handler`: dispatches on `event.type`; thrown
errors are caught and become a 500 `Failed to send email` response. -/
def emailSenderHandler (ev : EmailSenderEvent) (env : SenderEnv)
    (s : SenderState) : Response × SenderState :=
  if ev.type = "assignment_email" then
    match sendAssignmentEmailRun ev env s with
    | (.ok r, s') => (r, s')
    | (.error _, s') =>
      ({ statusCode := 500, message := "Failed to send email", taskId := none }, s')
  else if ev.type = "notification_email" then
    match sendNotificationEmailRun ev env s with
    | (.ok r, s') => (r, s')
    | (.error _, s') =>
      ({ statusCode := 500, message := "Failed to send email", taskId := none }, s')
  else
    ({ statusCode := 500, message := "Failed to send email", taskId := none }, s)

/-- Modelled from the spec: the Hot-tier window size N (default 20,
"Recent messages (last 20)"). -/
def hotWindowSize : Nat := 20

/-- Modelled from the spec: storing a sequence of messages in the Context
Store appends each in store order (`Message append is append-only`). -/
def storeMessages (msgs : List Message) : List Message :=
  msgs.foldl (fun acc m => acc ++ [m]) []

/-- Modelled from the spec: Hot-tier retrieval — query the recency index
for the newest `n` stored messages and present them in store order
(`a fixed-size sliding window of the N most recently stored Messages`). -/
def recentMessages (n : Nat) (store : List Message) : List Message :=
  (store.reverse.take n).reverse

/-- `true` when the op is the outbound dispatch step. -/
def isDispatchOp : Op → Bool
  | .dispatchEmail _ => true
  | _ => false

/-- `true` when the op is an assignment-email dispatch. -/
def isAssignmentDispatch : Op → Bool
  | .dispatchEmail e => e.type == "assignment_email"
  | _ => false

/-- Scans a trace and checks the spec's write order: every Decision
append must be preceded by the Task status change to `assigned`, and
every outbound dispatch must be preceded by a Decision append. -/
def traceRespectsOrder (seenAssign seenDecision : Bool) : List Op → Bool
  | [] => true
  | op :: rest =>
    match op with
    | .storeTask _ .assigned => traceRespectsOrder true seenDecision rest
    | .storeDecision _ => seenAssign && traceRespectsOrder seenAssign true rest
    | .dispatchEmail _ => seenDecision && traceRespectsOrder seenAssign seenDecision rest
    | _ => traceRespectsOrder seenAssign seenDecision rest

/-- The sequence of Task-status writes a trace performs for a given id. -/
def statusWrites (id : String) (ops : List Op) : List TaskStatus :=
  ops.filterMap (fun op =>
    match op with
    | .storeTask i st => if i == id then some st else none
    | _ => none)

/-- Forward order on the Task lifecycle
`pending → assigned → (completed | cancelled)`. -/
def statusRank : TaskStatus → Nat
  | .pending => 0
  | .assigned => 1
  | .completed => 2
  | .cancelled => 2

/-- The Decision value actually recorded by a run: the text-generation
collaborator's assignee and rationale, the run's clock reading, and the
mock scheduler's 0.85 confidence fed through the `|| 0.8` fallback. -/
def recordedDecision (env : OrchestratorEnv) : Decision :=
  { taskId := env.freshTaskId,
    assignedTo := env.claudeResponse.assignee,
    rationale := env.claudeResponse.rationale,
    timestamp := env.now,
    confidence := 85 }

/-- The recommendation value the in-source mock scheduler produces when
given the in-source mock roster. -/
def mockRecommendation : SchedRecommendation :=
  { assignment := some { assignee := "Alex", confidence := some 85,
                         rationale := "Best skill match and lowest workload" },
    alternatives := [ { assignee := some "Sarah", confidence := 65,
                        rationale := "Has some relevant skills but higher workload" } ] }

/-- A recommendation whose confidence is 0, exercising the `|| 0.8`
fallback. -/
def recZero : SchedRecommendation :=
  { assignment := some { assignee := "X", confidence := some 0,
                         rationale := "r" },
    alternatives := [] }

/- Concrete inputs used by counterexamples and witnesses. -/

/-- A representative inbound task request. -/
def sampleRequest : TaskRequest :=
  { description := "Need API documentation", deadline := some "Friday",
    skillsRequired := ["docs"], priority := none }

/-- The inbound message carrying the dedup key `msg-1`. -/
def sampleMessageIn : Message :=
  { id := "msg-1", fromAddr := "req@team.com", toAddr := "louie@depalma.work",
    subject := "Need API documentation", body := "",
    timestamp := "2025-01-01T00:00:00Z", type := .incoming }

/-- The parsed email data for the same message. -/
def sampleEmail : InboundEmail :=
  { messageId := "msg-1", fromAddr := "req@team.com",
    toAddrs := ["louie@depalma.work"], subject := "Need API documentation",
    timestamp := "2025-01-01T00:00:00Z" }

/-- The `event.data` built by the ingestion lambda for `msg-1`. -/
def sampleData : OrchEventData :=
  { email := sampleEmail, taskRequest := sampleRequest, message := sampleMessageIn }

/-- The orchestrator event for `msg-1` (dedup key `msg-1`). -/
def sampleEvent : OrchestratorEvent :=
  { type := "email_received", data := sampleData }

/-- A text-generation response choosing the roster member Alex. -/
def claudeAlex : AssignmentDecision :=
  { assignee := "Alex", rationale := "Best fit",
    emailSubject := "Task Assignment", emailBody := "You are on it" }

/-- A text-generation response naming someone not on the roster. -/
def claudeZorro : AssignmentDecision :=
  { assignee := "Zorro", rationale := "Gut feeling",
    emailSubject := "Task Assignment", emailBody := "You are on it" }

/-- Run inputs of a first delivery of `msg-1`. -/
def envA : OrchestratorEnv :=
  { freshTaskId := "task-1", now := "2025-01-01T00:00:01Z",
    claudeResponse := claudeAlex }

/-- Run inputs of a duplicate delivery of `msg-1` (new uuid, later clock). -/
def envB : OrchestratorEnv :=
  { freshTaskId := "task-2", now := "2025-01-01T00:00:02Z",
    claudeResponse := claudeAlex }

/-- Run inputs whose text-generation assignee is off the roster. -/
def envZ : OrchestratorEnv :=
  { freshTaskId := "task-9", now := "2025-01-02T00:00:00Z",
    claudeResponse := claudeZorro }

/-- The store before any run. -/
def emptyState : MemoryState := { messages := [], tasks := [], decisions := [] }

/-- A request whose required capability (`haskell`) no roster member holds. -/
def gapRequest : TaskRequest :=
  { description := "Write the Haskell service", deadline := none,
    skillsRequired := ["haskell"], priority := some "high" }

/-- Event data for the capability-gap request. -/
def gapData : OrchEventData :=
  { email := sampleEmail, taskRequest := gapRequest, message := sampleMessageIn }

/-- An orchestrator event with a type no handler recognizes. -/
def bogusEvent : OrchestratorEvent :=
  { type := "task_completed", data := sampleData }

/-- An email-sender event for task `task-1` (its only correlation field). -/
def sampleSenderEvent : EmailSenderEvent :=
  { type := "assignment_email",
    emailData := { toAddrs := ["alex@team.com", "req@team.com"],
                   subject := "Task Assignment", body := "You are on it" },
    taskId := some "task-1" }

/-- Sender-run inputs for a first delivery. -/
def senderEnvA : SenderEnv :=
  { freshMsgId := "out-1", now := "2025-01-01T00:00:03Z",
    emailDomain := "depalma.work" }

/-- Sender-run inputs for a duplicate delivery. -/
def senderEnvB : SenderEnv :=
  { freshMsgId := "out-2", now := "2025-01-01T00:00:04Z",
    emailDomain := "depalma.work" }

/-- The sender state before any run. -/
def emptySender : SenderState := { sent := [], notifSent := [], memory := [] }

/-- A message with a given numeric id, for hot-tier examples. -/
def mkMsg (i : Nat) : Message :=
  { id := toString i, fromAddr := "a@team.com", toAddr := "louie@depalma.work",
    subject := "s", body := "", timestamp := "t", type := .incoming }

/-- Twenty-one stored messages, one more than the hot window. -/
def manyMessages : List Message := (List.range 21).map mkMsg

/- Helper lemmas about the store and the orchestration run. -/

/-- Upserting a task whose id is not yet in the store appends it. -/
theorem upsertTask_fresh (ts : List Task) (t : Task)
    (h : t.id ∉ ts.map Task.id) : upsertTask ts t = ts ++ [t] := by
  unfold upsertTask
  rw [if_neg]
  intro hc
  rw [List.any_eq_true] at hc
  obtain ⟨x, hx, he⟩ := hc
  rw [beq_iff_eq] at he
  exact h (he ▸ List.mem_map_of_mem Task.id hx)

/-- Upserting a task with the id of the freshly appended record replaces
that record. -/
theorem upsertTask_replace (ts : List Task) (t t' : Task)
    (h : t.id ∉ ts.map Task.id) (hid : t'.id = t.id) :
    upsertTask (ts ++ [t]) t' = ts ++ [t'] := by
  unfold upsertTask
  rw [if_pos]
  · rw [List.map_append]
    congr 1
    · have : ∀ x ∈ ts, (if x.id == t'.id then t' else x) = x := by
        intro x hx
        have hne : ¬ (x.id == t'.id) = true := by
          rw [beq_iff_eq, hid]
          intro he
          exact h (he ▸ List.mem_map_of_mem Task.id hx)
        rw [if_neg hne]
      calc ts.map (fun x => if x.id == t'.id then t' else x)
          = ts.map id := List.map_congr_left this
        _ = ts := List.map_id ts
    · have : (t.id == t'.id) = true := by rw [beq_iff_eq]; exact hid.symm
      show [if t.id == t'.id then t' else t] = [t']
      rw [if_pos this]
  · rw [List.any_eq_true]
    exact ⟨t, List.mem_append_right _ (List.mem_singleton_self t),
      by rw [beq_iff_eq]; exact hid.symm⟩

/-- The two store writes of a run amount to appending the assigned task. -/
theorem upsertTask_twice (ts : List Task) (t t' : Task)
    (h : t.id ∉ ts.map Task.id) (hid : t'.id = t.id) :
    upsertTask (upsertTask ts t) t' = ts ++ [t'] := by
  rw [upsertTask_fresh ts t h, upsertTask_replace ts t t' h hid]

/-- An upserted task is in the resulting store. -/
theorem mem_upsertTask_self (ts : List Task) (t : Task) :
    t ∈ upsertTask ts t := by
  by_cases hc : (ts.any fun x => x.id == t.id) = true
  · unfold upsertTask
    rw [if_pos hc]
    rw [List.any_eq_true] at hc
    obtain ⟨x, hx, he⟩ := hc
    exact List.mem_map.2 ⟨x, hx, by rw [if_pos he]⟩
  · unfold upsertTask
    rw [if_neg hc]
    exact List.mem_append_right _ (List.mem_singleton_self t)

/-- Closed form of one `handleEmailReceived` run: the 200 response, the
store after the pending write, the assigned overwrite and the decision
append, and the trace ending in the conditional dispatch. -/
theorem handleEmail_run (d : OrchEventData) (env : OrchestratorEnv)
    (s : MemoryState) :
    handleEmailReceived d env s =
      (Except.ok { statusCode := 200, message := "Task assigned successfully",
                   taskId := some env.freshTaskId },
       { messages := s.messages,
         tasks := upsertTask (upsertTask s.tasks (pendingTask d env))
           (assignedTask d env),
         decisions := s.decisions ++ [recordedDecision env] },
       [Op.buildContext, Op.storeTask env.freshTaskId TaskStatus.pending,
        Op.sheetsRead, Op.schedulerConsulted, Op.claudeConsulted,
        Op.storeTask env.freshTaskId TaskStatus.assigned,
        Op.storeDecision (recordedDecision env)] ++ dispatchOps d env) := rfl

/-- Closed form of an `email_received` run through the top-level handler. -/
theorem orch_email_run (ev : OrchestratorEvent) (env : OrchestratorEnv)
    (s : MemoryState) (h : ev.type = "email_received") :
    orchestratorHandler ev env s =
      ({ statusCode := 200, message := "Task assigned successfully",
         taskId := some env.freshTaskId },
       { messages := s.messages,
         tasks := upsertTask (upsertTask s.tasks (pendingTask ev.data env))
           (assignedTask ev.data env),
         decisions := s.decisions ++ [recordedDecision env] },
       [Op.buildContext, Op.storeTask env.freshTaskId TaskStatus.pending,
        Op.sheetsRead, Op.schedulerConsulted, Op.claudeConsulted,
        Op.storeTask env.freshTaskId TaskStatus.assigned,
        Op.storeDecision (recordedDecision env)] ++ dispatchOps ev.data env) := by
  unfold orchestratorHandler
  rw [if_pos h, handleEmail_run]

/-- C1 counterexample: the same inbound event (dedup key `msg-1`)
delivered twice produces two Tasks with two different ids, and the second
call returns the new Task rather than the existing one — refuting "at
most one Task is created per dedup key". -/
theorem c1_counterexample :
    ¬ (((orchestratorHandler sampleEvent envB
          (orchestratorHandler sampleEvent envA emptyState).2.1).2.1).tasks.length ≤ 1)
    ∧ (orchestratorHandler sampleEvent envA emptyState).1.taskId = some "task-1"
    ∧ (orchestratorHandler sampleEvent envB
        (orchestratorHandler sampleEvent envA emptyState).2.1).1.taskId
        = some "task-2" := by
  decide

/-- C1 (amended): `handle(event)` performs no dedup-key lookup; every
`email_received` invocation creates a Task under the uuid generated for
that run, so two deliveries of the same event (two fresh uuids) append
two distinct Tasks to the store. -/
theorem c1_fresh_task_per_call (ev : OrchestratorEvent)
    (env1 env2 : OrchestratorEnv) (s : MemoryState)
    (htype : ev.type = "email_received")
    (h1 : env1.freshTaskId ∉ s.tasks.map Task.id)
    (h2 : env2.freshTaskId ∉ s.tasks.map Task.id)
    (hne : env2.freshTaskId ≠ env1.freshTaskId) :
    ((orchestratorHandler ev env2
        (orchestratorHandler ev env1 s).2.1).2.1).tasks
      = s.tasks ++ [assignedTask ev.data env1, assignedTask ev.data env2] := by
  rw [orch_email_run ev env1 s htype]
  have e1 : upsertTask (upsertTask s.tasks (pendingTask ev.data env1))
      (assignedTask ev.data env1) = s.tasks ++ [assignedTask ev.data env1] :=
    upsertTask_twice s.tasks (pendingTask ev.data env1)
      (assignedTask ev.data env1) h1 rfl
  rw [orch_email_run ev env2 _ htype]
  simp only [e1]
  have h2' : (pendingTask ev.data env2).id ∉
      ((s.tasks ++ [assignedTask ev.data env1]).map Task.id) := by
    rw [List.map_append, List.mem_append]
    rintro (hc | hc)
    · exact h2 hc
    · simp only [List.map_cons, List.map_nil, List.mem_singleton] at hc
      exact hne hc
  rw [upsertTask_twice _ (pendingTask ev.data env2)
    (assignedTask ev.data env2) h2' rfl, List.append_assoc]
  rfl

/-- C1 witness: the amended statement instantiated at the duplicate
delivery of `msg-1`. -/
theorem c1_witness :
    sampleEvent.type = "email_received"
    ∧ envA.freshTaskId ∉ emptyState.tasks.map Task.id
    ∧ envB.freshTaskId ∉ emptyState.tasks.map Task.id
    ∧ envB.freshTaskId ≠ envA.freshTaskId
    ∧ ((orchestratorHandler sampleEvent envB
          (orchestratorHandler sampleEvent envA emptyState).2.1).2.1).tasks
        = emptyState.tasks ++
          [assignedTask sampleEvent.data envA, assignedTask sampleEvent.data envB] :=
  ⟨by decide, by decide, by decide, by decide,
    c1_fresh_task_per_call sampleEvent envA envB emptyState
      (by decide) (by decide) (by decide) (by decide)⟩

/-- C2 counterexample: a request requiring `haskell`, which no roster
member holds, still ends with a Decision for the collaborator's assignee
Alex at confidence 0.85 and an assignment-email dispatch — refuting
"assignee = none, confidence = 0, explanatory notification". -/
theorem c2_counterexample :
    (getTeamDataFromSheets.all fun m => !(m.skills.contains "haskell")) = true
    ∧ (handleEmailReceived gapData envA emptyState).2.1.decisions
        = [{ taskId := "task-1", assignedTo := "Alex", rationale := "Best fit",
             timestamp := "2025-01-01T00:00:01Z", confidence := 85 }]
    ∧ ((handleEmailReceived gapData envA emptyState).2.2.any
        isAssignmentDispatch) = true := by
  decide

/-- C2 (amended): the orchestrator never checks the required-capability
set against the roster; every run records the text-generation
collaborator's assignee with the mock scheduler's 0.85 confidence, and
any dispatch it performs is an assignment email — there is no
assignee-none / confidence-0 / explanatory-notification path. -/
theorem c2_records_claude_assignee_always (d : OrchEventData)
    (env : OrchestratorEnv) (s : MemoryState) :
    (handleEmailReceived d env s).2.1.decisions
      = s.decisions ++ [recordedDecision env]
    ∧ (recordedDecision env).assignedTo = env.claudeResponse.assignee
    ∧ (recordedDecision env).confidence = 85
    ∧ (((handleEmailReceived d env s).2.2.filter isDispatchOp).all
        isAssignmentDispatch) = true := by
  refine ⟨by rw [handleEmail_run], rfl, rfl, ?_⟩
  rw [handleEmail_run]
  cases hf : findTeamMemberEmail env.claudeResponse.assignee getTeamDataFromSheets with
  | none => simp [dispatchOps, hf, isDispatchOp, isAssignmentDispatch]
  | some a => simp [dispatchOps, hf, isDispatchOp, isAssignmentDispatch]

/-- C3: within one orchestration run the trace always performs the Task
status change to `assigned` before the Decision append, and the Decision
append before any outbound dispatch. -/
theorem c3_write_order (ev : OrchestratorEvent) (env : OrchestratorEnv)
    (s : MemoryState) :
    traceRespectsOrder false false (orchestratorHandler ev env s).2.2 = true := by
  by_cases h1 : ev.type = "email_received"
  · rw [orch_email_run ev env s h1]
    cases hf : findTeamMemberEmail env.claudeResponse.assignee getTeamDataFromSheets with
    | none => simp [dispatchOps, hf, traceRespectsOrder]
    | some a => simp [dispatchOps, hf, traceRespectsOrder]
  · unfold orchestratorHandler
    rw [if_neg h1]
    by_cases h2 : ev.type = "manual_task"
    · rw [if_pos h2]; rfl
    · rw [if_neg h2]
      by_cases h3 : ev.type = "health_check"
      · rw [if_pos h3]; rfl
      · rw [if_neg h3]; rfl

/-- C4 counterexample: delivering the same `assignment_email` event (task
`task-1`) twice hands two emails to SES, both tagged with the same task —
refuting "at most one logical outbound send per idempotency key". -/
theorem c4_counterexample :
    ¬ (((emailSenderHandler sampleSenderEvent senderEnvB
          (emailSenderHandler sampleSenderEvent senderEnvA emptySender).2).2).sent.length ≤ 1)
    ∧ ((emailSenderHandler sampleSenderEvent senderEnvB
          (emailSenderHandler sampleSenderEvent senderEnvA emptySender).2).2).sent.map
        SesSend.taskId = [some "task-1", some "task-1"] := by
  decide

/-- One successful assignment-email run appends exactly one SES send. -/
theorem sender_sent_step (ev : EmailSenderEvent) (env : SenderEnv)
    (s : SenderState) (a : String) (cc : List String)
    (htype : ev.type = "assignment_email")
    (hto : ev.emailData.toAddrs = a :: cc) :
    (emailSenderHandler ev env s).2.sent = s.sent ++
      [{ name := "Unknown", toAddr := a, cc := cc,
         subject := ev.emailData.subject, body := ev.emailData.body,
         taskId := ev.taskId }] := by
  simp [emailSenderHandler, sendAssignmentEmailRun, htype, hto]

/-- C4 (amended): the email-sender consults no idempotency key; every
delivery of the same event performs a fresh SES send, so two deliveries
produce two sends. -/
theorem c4_sender_not_idempotent (ev : EmailSenderEvent)
    (env1 env2 : SenderEnv) (s : SenderState)
    (htype : ev.type = "assignment_email")
    (hto : ev.emailData.toAddrs ≠ []) :
    ((emailSenderHandler ev env2
        (emailSenderHandler ev env1 s).2).2).sent.length
      = s.sent.length + 2 := by
  cases hl : ev.emailData.toAddrs with
  | nil => exact absurd hl hto
  | cons a cc =>
    rw [sender_sent_step ev env2 _ a cc htype hl,
        sender_sent_step ev env1 s a cc htype hl]
    simp

/-- C4 witness: the amended statement instantiated at the duplicate
delivery of the `task-1` assignment email. -/
theorem c4_witness :
    sampleSenderEvent.type = "assignment_email"
    ∧ sampleSenderEvent.emailData.toAddrs ≠ []
    ∧ ((emailSenderHandler sampleSenderEvent senderEnvB
          (emailSenderHandler sampleSenderEvent senderEnvA emptySender).2).2).sent.length
        = emptySender.sent.length + 2 :=
  ⟨by decide, by decide,
    c4_sender_not_idempotent sampleSenderEvent senderEnvA senderEnvB emptySender
      (by decide) (by decide)⟩

/-- Context for C5: the optimizer boundary in the source is the hardcoded
mock — on the in-source roster its response is always present and
well-formed — and every run consults it at most once, so no retry
machinery is ever exercised. -/
theorem scheduler_mock_total_single_call (ev : OrchestratorEvent)
    (env : OrchestratorEnv) (s : MemoryState) :
    (getSchedulerRecommendation getTeamDataFromSheets).isSome = true
    ∧ ((orchestratorHandler ev env s).2.2.countP
        (fun op => op == Op.schedulerConsulted)) ≤ 1 := by
  refine ⟨rfl, ?_⟩
  by_cases h1 : ev.type = "email_received"
  · rw [orch_email_run ev env s h1]
    cases hf : findTeamMemberEmail env.claudeResponse.assignee getTeamDataFromSheets with
    | none => simp [dispatchOps, hf, List.countP_cons, List.countP_append]
    | some a => simp [dispatchOps, hf, List.countP_cons, List.countP_append]
  · unfold orchestratorHandler
    rw [if_neg h1]
    by_cases h2 : ev.type = "manual_task"
    · rw [if_pos h2]; simp
    · rw [if_neg h2]
      by_cases h3 : ev.type = "health_check"
      · rw [if_pos h3]; simp
      · rw [if_neg h3]; simp

/-- C6 counterexample: an event of unrecognized type `task_completed`
makes the handler return the same generic 500 `Internal server error`
response as any internal failure, leaving the store untouched — no
distinguished ValidationError is surfaced to the caller. -/
theorem c6_counterexample :
    orchestratorHandler bogusEvent envA emptyState
      = ({ statusCode := 500, message := "Internal server error",
           taskId := none }, emptyState, [])
    ∧ (orchestratorHandler bogusEvent envA emptyState).2.1.tasks = [] := by
  decide

/-- C6 (amended): an event whose type matches no handler creates no Task
and performs no writes, but the thrown generic `Error` is swallowed by
the top-level catch, which returns the indistinct 500
`Internal server error` response — no ValidationError type exists. -/
theorem c6_unknown_event_generic_500 (ev : OrchestratorEvent)
    (env : OrchestratorEnv) (s : MemoryState)
    (h1 : ev.type ≠ "email_received") (h2 : ev.type ≠ "manual_task")
    (h3 : ev.type ≠ "health_check") :
    orchestratorHandler ev env s
      = ({ statusCode := 500, message := "Internal server error",
           taskId := none }, s, []) := by
  unfold orchestratorHandler
  rw [if_neg h1, if_neg h2, if_neg h3]

/-- C6 witness: the amended statement instantiated at the
`task_completed` event. -/
theorem c6_witness :
    bogusEvent.type ≠ "email_received"
    ∧ bogusEvent.type ≠ "manual_task"
    ∧ bogusEvent.type ≠ "health_check"
    ∧ orchestratorHandler bogusEvent envB emptyState
        = ({ statusCode := 500, message := "Internal server error",
             taskId := none }, emptyState, []) :=
  ⟨by decide, by decide, by decide,
    c6_unknown_event_generic_500 bogusEvent envB emptyState
      (by decide) (by decide) (by decide)⟩

/-- Status writes distribute over trace concatenation. -/
theorem statusWrites_append (id : String) (l1 l2 : List Op) :
    statusWrites id (l1 ++ l2) = statusWrites id l1 ++ statusWrites id l2 := by
  simp [statusWrites, List.filterMap_append]

/-- C7: in every handler run, the sequence of status writes performed for
any given Task id is forward-only in the lifecycle order — the run writes
`pending` then `assigned` for the Task it creates and touches no other
Task's status, so no operation moves a status backward. -/
theorem c7_status_forward_only (ev : OrchestratorEvent)
    (env : OrchestratorEnv) (s : MemoryState) (id : String) :
    List.Chain' (fun a b => statusRank a ≤ statusRank b)
      (statusWrites id (orchestratorHandler ev env s).2.2) := by
  by_cases h1 : ev.type = "email_received"
  · rw [orch_email_run ev env s h1]
    have hd : statusWrites id (dispatchOps ev.data env) = [] := by
      cases hf : findTeamMemberEmail env.claudeResponse.assignee getTeamDataFromSheets with
      | none => simp [dispatchOps, hf, statusWrites]
      | some a => simp [dispatchOps, hf, statusWrites]
    rw [statusWrites_append, hd, List.append_nil]
    by_cases hid : env.freshTaskId = id
    · simp [statusWrites, beq_iff_eq, hid, List.chain'_cons, statusRank]
    · simp [statusWrites, beq_iff_eq, hid]
  · unfold orchestratorHandler
    rw [if_neg h1]
    by_cases h2 : ev.type = "manual_task"
    · rw [if_pos h2]; simp [statusWrites]
    · rw [if_neg h2]
      by_cases h3 : ev.type = "health_check"
      · rw [if_pos h3]; simp [statusWrites]
      · rw [if_neg h3]; simp [statusWrites]

/-- The Context Store's messages list after storing a sequence equals the
sequence in store order. -/
theorem storeMessages_eq (msgs : List Message) : storeMessages msgs = msgs := by
  have aux : ∀ (l : List Message) (acc : List Message),
      List.foldl (fun a m => a ++ [m]) acc l = acc ++ l := by
    intro l
    induction l with
    | nil => intro acc; simp
    | cons m rest ih =>
      intro acc
      rw [List.foldl_cons, ih (acc ++ [m]), List.append_assoc]
      rfl
  rw [storeMessages, aux msgs [], List.nil_append]

/-- C8: after storing more messages than the window size, Hot-tier
retrieval returns exactly the `hotWindowSize` most recently stored
messages, in store order, for arbitrary message contents. -/
theorem c8_hot_tier_window (msgs : List Message)
    (h : hotWindowSize < msgs.length) :
    recentMessages hotWindowSize (storeMessages msgs)
      = msgs.drop (msgs.length - hotWindowSize)
    ∧ (recentMessages hotWindowSize (storeMessages msgs)).length = hotWindowSize
    ∧ msgs.take (msgs.length - hotWindowSize)
        ++ recentMessages hotWindowSize (storeMessages msgs) = msgs := by
  have key : recentMessages hotWindowSize (storeMessages msgs)
      = msgs.drop (msgs.length - hotWindowSize) := by
    rw [storeMessages_eq, recentMessages, ← List.rtake_eq_reverse_take_reverse,
      List.rtake]
  refine ⟨key, ?_, ?_⟩
  · rw [key, List.length_drop]
    omega
  · rw [key, List.take_append_drop]

/-- C8 witness: twenty-one stored messages; retrieval returns the last
twenty in store order. -/
theorem c8_witness :
    hotWindowSize < manyMessages.length
    ∧ (recentMessages hotWindowSize (storeMessages manyMessages)
        = manyMessages.drop (manyMessages.length - hotWindowSize)
      ∧ (recentMessages hotWindowSize (storeMessages manyMessages)).length
          = hotWindowSize
      ∧ manyMessages.take (manyMessages.length - hotWindowSize)
          ++ recentMessages hotWindowSize (storeMessages manyMessages)
          = manyMessages) :=
  ⟨by decide, c8_hot_tier_window manyMessages (by decide)⟩

/-- C9: the `|| 0.8` fallback on the optimizer confidence — the value is
never 0: it is the recommendation's confidence exactly when that is
present and non-zero, and 0.8 when it is absent or 0; and the Decision a
run records carries exactly this value computed from the scheduler's
response. -/
theorem c9_confidence_fallback (rec : SchedRecommendation)
    (d : OrchEventData) (env : OrchestratorEnv) (s : MemoryState) :
    jsOrConfidence rec ≠ 0
    ∧ (∀ c : Nat, rec.assignment.bind SchedAssignment.confidence = some c →
        c ≠ 0 → jsOrConfidence rec = c)
    ∧ (rec.assignment.bind SchedAssignment.confidence = some 0 →
        jsOrConfidence rec = 80)
    ∧ (rec.assignment.bind SchedAssignment.confidence = none →
        jsOrConfidence rec = 80)
    ∧ (∀ rec0 : SchedRecommendation,
        getSchedulerRecommendation getTeamDataFromSheets = some rec0 →
        (handleEmailReceived d env s).2.1.decisions = s.decisions ++
          [{ taskId := env.freshTaskId,
             assignedTo := env.claudeResponse.assignee,
             rationale := env.claudeResponse.rationale,
             timestamp := env.now,
             confidence := jsOrConfidence rec0 }]) := by
  obtain ⟨assignment, alts⟩ := rec
  refine ⟨?_, ?_, ?_, ?_, ?_⟩
  · cases assignment with
    | none => simp [jsOrConfidence]
    | some a =>
      cases hc : a.confidence with
      | none => simp [jsOrConfidence, hc]
      | some c =>
        by_cases h0 : c = 0
        · simp [jsOrConfidence, hc, h0]
        · simp [jsOrConfidence, hc, h0]
  · intro c hbind hc0
    cases assignment with
    | none => simp at hbind
    | some a =>
      simp only [Option.some_bind] at hbind
      simp [jsOrConfidence, show a.confidence = some c from hbind, hc0]
  · intro hbind
    cases assignment with
    | none => simp at hbind
    | some a =>
      simp only [Option.some_bind] at hbind
      simp [jsOrConfidence, show a.confidence = some 0 from hbind]
  · intro hbind
    cases assignment with
    | none => simp [jsOrConfidence]
    | some a =>
      simp only [Option.some_bind] at hbind
      simp [jsOrConfidence, show a.confidence = none from hbind]
  · intro rec0 h0
    have he : getSchedulerRecommendation getTeamDataFromSheets
        = some mockRecommendation := rfl
    rw [he] at h0
    have hrec : rec0 = mockRecommendation := (Option.some_inj.mp h0).symm
    rw [hrec, handleEmail_run]
    rfl

/-- C9 witness: a recommendation carrying confidence 0 — the recorded
value falls back to 0.8 and is non-zero. -/
theorem c9_witness :
    recZero.assignment.bind SchedAssignment.confidence = some 0
    ∧ jsOrConfidence recZero = 80
    ∧ jsOrConfidence recZero ≠ 0 :=
  ⟨by decide,
    (c9_confidence_fallback recZero sampleData envA emptyState).2.2.1 (by decide),
    (c9_confidence_fallback recZero sampleData envA emptyState).1⟩

/-- C10: when the text-generation collaborator's assignee matches no
roster name, the run still returns the 200 "Task assigned successfully"
response, still stores the Task as `assigned`, still records the
Decision, and performs no dispatch at all — the miss is silent. -/
theorem c10_unmatched_assignee_silent (d : OrchEventData)
    (env : OrchestratorEnv) (s : MemoryState)
    (h : findTeamMemberEmail env.claudeResponse.assignee
      getTeamDataFromSheets = none) :
    (handleEmailReceived d env s).1
      = Except.ok { statusCode := 200, message := "Task assigned successfully",
                    taskId := some env.freshTaskId }
    ∧ (handleEmailReceived d env s).2.1.decisions
        = s.decisions ++ [recordedDecision env]
    ∧ assignedTask d env ∈ (handleEmailReceived d env s).2.1.tasks
    ∧ (assignedTask d env).status = TaskStatus.assigned
    ∧ ((handleEmailReceived d env s).2.2.any isDispatchOp) = false := by
  refine ⟨by rw [handleEmail_run], by rw [handleEmail_run], ?_, rfl, ?_⟩
  · rw [handleEmail_run]
    exact mem_upsertTask_self _ _
  · rw [handleEmail_run]
    simp [dispatchOps, h, isDispatchOp]

/-- C10 witness: the statement instantiated at the off-roster assignee
`Zorro`. -/
theorem c10_witness :
    findTeamMemberEmail envZ.claudeResponse.assignee getTeamDataFromSheets = none
    ∧ ((handleEmailReceived sampleData envZ emptyState).1
        = Except.ok { statusCode := 200,
                      message := "Task assigned successfully",
                      taskId := some envZ.freshTaskId }
      ∧ (handleEmailReceived sampleData envZ emptyState).2.1.decisions
          = emptyState.decisions ++ [recordedDecision envZ]
      ∧ assignedTask sampleData envZ ∈
          (handleEmailReceived sampleData envZ emptyState).2.1.tasks
      ∧ (assignedTask sampleData envZ).status = TaskStatus.assigned
      ∧ ((handleEmailReceived sampleData envZ emptyState).2.2.any
          isDispatchOp) = false) :=
  ⟨by decide, c10_unmatched_assignee_silent sampleData envZ emptyState (by decide)⟩

end DePalma
